import Mathlib

/-!
Verification of the span-selection, validation and export logic of the
Ontology-corpus-labeling repository (a sentence-labeling web tool).
The definitions below are shallow embeddings of the TypeScript source:

* `handleWordClick`      — src/components/word-selector.tsx, lines 20-48
* `validateLabel`        — src/components/sentence-labeler.tsx (part_002), lines 34-55
* `labelTypeChange`      — part_002, lines 109-116 (RadioGroup onValueChange)
* `sentenceLabelerSubmit`— part_002, lines 57-82 (handleSubmit)
* `handleLabelSubmit`    — src/components/labeler-client.tsx, lines 56-91
* `editLabelTypeChange`  — part_003 (MyLabelsClient), lines 398-404
* `editSubjectInit` / `editObjectInit` — part_003, lines 162-175 (handleEdit)
* `splitWs`, `exportSpanText` — src/components/export-client.tsx, lines 48-72,
  and the JS `String.split(/\s+/)` tokenizer both paths share.

Spans are inclusive pairs of token indices, as in the source.
-/

namespace OntologyLabeling

/-- An inclusive pair of token indices `[start, end]`, as stored in
`selection : [number, number]` in the source. -/
abbrev Span := Nat × Nat

/-- `disabledRange && index >= disabledRange[0] && index <= disabledRange[1]`
from word-selector.tsx line 22 (a `null`/`undefined` range disables nothing). -/
def isDisabledIn (d : Option Span) (i : Nat) : Bool :=
  match d with
  | none => false
  | some r => decide (r.1 ≤ i ∧ i ≤ r.2)

/-- `handleWordClick` from src/components/word-selector.tsx lines 20-48:
the click-policy over the current `selection`, with the other role's span as
`disabledRange`.  The branches appear in source order. -/
def handleWordClick (disabledRange : Option Span) (selection : Option Span)
    (index : Nat) : Option Span :=
  if isDisabledIn disabledRange index then selection
  else
    match selection with
    | none => some (index, index)
    | some sel =>
      if sel.1 = index ∧ sel.2 = index then none
      else if index < sel.1 then some (index, sel.2)
      else if index > sel.2 then some (sel.1, index)
      else if index = sel.1 then some (index + 1, sel.2)
      else if index = sel.2 then some (sel.1, index - 1)
      else some (index, index)

/-- A span value is well formed for an `n`-token sentence when it is either
`none` or an inclusive range `[s, e]` with `s ≤ e ≤ n - 1`. -/
def spanWF (n : Nat) : Option Span → Prop
  | none => True
  | some r => r.1 ≤ r.2 ∧ r.2 ≤ n - 1

instance : (n : Nat) → (s : Option Span) → Decidable (spanWF n s)
  | _, none => isTrue trivial
  | n, some r => inferInstanceAs (Decidable (r.1 ≤ r.2 ∧ r.2 ≤ n - 1))

/-- A sequence of clicks on one selector; each click carries the
`disabledRange` the selector was given at that moment. -/
def runClicks (sel : Option Span) (clicks : List (Option Span × Nat)) :
    Option Span :=
  clicks.foldl (fun s c => handleWordClick c.1 s c.2) sel

theorem handleWordClick_preserves_wf {n : Nat} {d sel : Option Span} {i : Nat}
    (hs : spanWF n sel) (hi : i ≤ n - 1) : spanWF n (handleWordClick d sel i) := by
  unfold handleWordClick
  split
  · exact hs
  · cases sel with
    | none => exact ⟨Nat.le_refl i, hi⟩
    | some r =>
      obtain ⟨h₁, h₂⟩ := hs
      by_cases htoggle : r.1 = i ∧ r.2 = i
      · simp [htoggle, spanWF]
      · simp only [htoggle, if_false]
        by_cases hleft : i < r.1
        · simp only [hleft, if_true]
          exact ⟨Nat.le_trans (Nat.le_of_lt hleft) h₁, h₂⟩
        · simp only [hleft, if_false]
          by_cases hright : i > r.2
          · simp only [hright, if_true]
            exact ⟨Nat.le_trans h₁ (Nat.le_of_lt hright), hi⟩
          · simp only [hright, if_false]
            by_cases hs1 : i = r.1
            · simp only [hs1, if_true]
              refine ⟨?_, h₂⟩
              rcases Nat.lt_or_ge r.1 r.2 with h | h
              · omega
              · omega
            · simp only [hs1, if_false]
              by_cases hs2 : i = r.2
              · simp only [hs2, if_true]
                constructor
                · omega
                · omega
              · simp only [hs2, if_false]
                exact ⟨Nat.le_refl i, hi⟩

theorem runClicks_preserves_wf {n : Nat} {sel : Option Span}
    {clicks : List (Option Span × Nat)} (hs : spanWF n sel)
    (h : ∀ c ∈ clicks, c.2 ≤ n - 1) : spanWF n (runClicks sel clicks) := by
  induction clicks generalizing sel with
  | nil => exact hs
  | cons c cs ih =>
    exact ih (handleWordClick_preserves_wf hs (h c (List.mem_cons_self c cs)))
      (fun x hx => h x (List.mem_cons_of_mem c hx))

/-- Claim C2: for every sequence of clicks with token indices in `[0, n-1]`
on an `n`-token sentence, starting from no selection (and whatever disabled
range each click was issued under), the resulting span is either `none` or an
inclusive pair `[start, end]` with `0 ≤ start ≤ end ≤ n-1`.  Quantifying over
all sequences covers the state after every click of any longer sequence. -/
theorem click_sequences_produce_wellformed_spans (n : Nat)
    (clicks : List (Option Span × Nat)) (h : ∀ c ∈ clicks, c.2 ≤ n - 1) :
    spanWF n (runClicks none clicks) :=
  runClicks_preserves_wf trivial h

/-- Witness for C2 at a concrete input: three clicks on a 6-token sentence. -/
theorem click_sequences_produce_wellformed_spans_witness :
    spanWF 6 (runClicks none [(none, 2), (none, 4), (none, 3)]) :=
  click_sequences_produce_wellformed_spans 6 [(none, 2), (none, 4), (none, 3)]
    (by decide)

/-- The pair of spans maintained by `SentenceLabeler` (part_002, lines
151-175): each `WordSelector` receives the other role's current span as its
`disabledRange`. -/
structure LabelerSpans where
  subjectSpan : Option Span
  objectSpan : Option Span

/-- Which of the two selectors a click lands on. -/
inductive SpanRole
  | subject
  | object

/-- One click in the two-selector interaction, exactly as wired in
part_002 lines 151-175: the subject selector updates `subjectSpan` with
`disabledRange = objectSpan`, and symmetrically for the object selector. -/
def spanClick (st : LabelerSpans) (role : SpanRole) (i : Nat) : LabelerSpans :=
  match role with
  | .subject =>
      { st with subjectSpan := handleWordClick st.objectSpan st.subjectSpan i }
  | .object =>
      { st with objectSpan := handleWordClick st.subjectSpan st.objectSpan i }

def runSpanClicks (st : LabelerSpans) (evs : List (SpanRole × Nat)) :
    LabelerSpans :=
  evs.foldl (fun s e => spanClick s e.1 e.2) st

/-- Two inclusive ranges overlap when some index lies in both. -/
def spansOverlap (a b : Span) : Prop :=
  ∃ i, (a.1 ≤ i ∧ i ≤ a.2) ∧ (b.1 ≤ i ∧ i ≤ b.2)

/-- Claim C1 fails on the code: from no selection, the click sequence
object-click 2, subject-click 4, subject-click 5, subject-click 0 — every
click landing outside the other role's span at the time — ends with subject
span `[0,5]` and object span `[2,2]`, which overlap at token 2.  The
left-extension branch of `handleWordClick` jumps across the disabled range,
so the disabled-range feedback does not enforce the non-overlap invariant. -/
theorem overlap_invariant_fails_on_extension :
    runSpanClicks ⟨none, none⟩
        [(SpanRole.object, 2), (SpanRole.subject, 4),
         (SpanRole.subject, 5), (SpanRole.subject, 0)] =
      ⟨some (0, 5), some (2, 2)⟩ ∧
    spansOverlap (0, 5) (2, 2) :=
  ⟨rfl, ⟨2, by decide⟩⟩

/-- Claim C3: `handleWordClick` implements exactly the specified case
analysis — a click inside the disabled range is a no-op; with no span set,
`click i` yields `[i,i]`; a click strictly left of `start` extends to
`[i, end]`; strictly right of `end` extends to `[start, i]`; on `start` with
`start < end` shrinks to `[start+1, end]`; on `end` with `start < end`
shrinks to `[start, end-1]`; strictly between collapses to `[i,i]`.  The
last conjunct is the concrete scenario: from no selection, clicking token 2
then token 4 yields `[2,4]`, and then clicking token 3 yields `[3,3]`. -/
theorem handleWordClick_case_analysis (d : Option Span) (s e i : Nat) :
    (isDisabledIn d i = true → ∀ sel, handleWordClick d sel i = sel) ∧
    (isDisabledIn d i = false → handleWordClick d none i = some (i, i)) ∧
    (isDisabledIn d i = false → i < s →
      handleWordClick d (some (s, e)) i = some (i, e)) ∧
    (isDisabledIn d i = false → s ≤ e → e < i →
      handleWordClick d (some (s, e)) i = some (s, i)) ∧
    (isDisabledIn d i = false → i = s → s < e →
      handleWordClick d (some (s, e)) i = some (s + 1, e)) ∧
    (isDisabledIn d i = false → i = e → s < e →
      handleWordClick d (some (s, e)) i = some (s, e - 1)) ∧
    (isDisabledIn d i = false → s < i → i < e →
      handleWordClick d (some (s, e)) i = some (i, i)) ∧
    (handleWordClick none (handleWordClick none none 2) 4 = some (2, 4) ∧
     handleWordClick none (some (2, 4)) 3 = some (3, 3)) := by
  refine ⟨?_, ?_, ?_, ?_, ?_, ?_, ?_, by decide, by decide⟩
  · intro hd sel
    simp [handleWordClick, hd]
  · intro hd
    simp [handleWordClick, hd]
  · intro hd hlt
    simp only [handleWordClick, hd, Bool.false_eq_true, if_false]
    rw [if_neg (by omega), if_pos hlt]
  · intro hd hse hgt
    simp only [handleWordClick, hd, Bool.false_eq_true, if_false]
    rw [if_neg (by omega), if_neg (by omega), if_pos hgt]
  · intro hd heq hlt
    simp only [handleWordClick, hd, Bool.false_eq_true, if_false]
    rw [if_neg (by omega), if_neg (by omega), if_neg (by omega),
      if_pos heq, heq]
  · intro hd heq hlt
    simp only [handleWordClick, hd, Bool.false_eq_true, if_false]
    rw [if_neg (by omega), if_neg (by omega), if_neg (by omega),
      if_neg (by omega), if_pos heq, heq]
  · intro hd h₁ h₂
    simp only [handleWordClick, hd, Bool.false_eq_true, if_false]
    rw [if_neg (by omega), if_neg (by omega), if_neg (by omega),
      if_neg (by omega), if_neg (by omega)]

/-- Witness for C3: each branch of the case analysis evaluated at a
concrete input. -/
theorem handleWordClick_case_analysis_witness :
    handleWordClick (some (1, 2)) (some (4, 5)) 2 = some (4, 5) ∧
    handleWordClick none none 3 = some (3, 3) ∧
    handleWordClick none (some (2, 4)) 0 = some (0, 4) ∧
    handleWordClick none (some (2, 4)) 6 = some (2, 6) ∧
    handleWordClick none (some (2, 4)) 2 = some (3, 4) ∧
    handleWordClick none (some (2, 4)) 4 = some (2, 3) ∧
    handleWordClick none (some (2, 4)) 3 = some (3, 3) :=
  ⟨(handleWordClick_case_analysis (some (1, 2)) 0 0 2).1 (by decide) _,
   (handleWordClick_case_analysis none 0 0 3).2.1 (by decide),
   (handleWordClick_case_analysis none 2 4 0).2.2.1 (by decide) (by decide),
   (handleWordClick_case_analysis none 2 4 6).2.2.2.1 (by decide) (by decide)
     (by decide),
   (handleWordClick_case_analysis none 2 4 2).2.2.2.2.1 (by decide) (by decide)
     (by decide),
   (handleWordClick_case_analysis none 2 4 4).2.2.2.2.2.1 (by decide)
     (by decide) (by decide),
   (handleWordClick_case_analysis none 2 4 3).2.2.2.2.2.2.1 (by decide)
     (by decide) (by decide)⟩

/-- Claim C6: whenever the current span is exactly `[i,i]`, clicking token
`i` again clears the selection, for any token index `i` (hence for any
sentence length `n ≥ 1` containing it).  The hypothesis that `i` is not
inside the disabled range reflects the source's first branch (a disabled
click is a no-op before the toggle-off case is reached). -/
theorem toggle_off_clears_selection (d : Option Span) (i : Nat)
    (hd : isDisabledIn d i = false) :
    handleWordClick d (some (i, i)) i = none := by
  simp [handleWordClick, hd]

/-- Witness for C6: clicking the sole selected token 3 clears the span. -/
theorem toggle_off_clears_selection_witness :
    handleWordClick none (some (3, 3)) 3 = none :=
  toggle_off_clears_selection none 3 rfl

/-- The five label categories (`LabelType` in lib/types, part_000 line 40). -/
inductive LabelType
  | pdr
  | pd
  | pr
  | p
  | n
deriving DecidableEq

/-- `validateLabel` from `SentenceLabeler` (part_002, lines 34-55): a pure
function of the chosen category and the two spans, returning `none` when the
combination is submittable and the error message otherwise.  The branches
appear in source order. -/
def validateLabel (labelType : Option LabelType)
    (subjectSpan objectSpan : Option Span) : Option String :=
  match labelType with
  | none => some "Please select a label type"
  | some .pdr =>
      if subjectSpan = none then
        some "Please select subject words for full alignment"
      else if objectSpan = none then
        some "Please select object words for full alignment"
      else none
  | some .pd =>
      if subjectSpan = none then
        some "Please select subject words for correct domain"
      else none
  | some .pr =>
      if objectSpan = none then
        some "Please select object words for correct range"
      else none
  | some .p => none
  | some .n => none

/-- Claim C4: the validator rejects if and only if the category is unset, or
is `pdr` with a missing subject or object span, or `pd` with a missing
subject span, or `pr` with a missing object span; `p` and `n` are never
rejected; and each rejection carries its category-specific message. -/
theorem validateLabel_characterization (lt : Option LabelType)
    (subj obj : Option Span) :
    (validateLabel lt subj obj ≠ none ↔
      lt = none ∨
      (lt = some .pdr ∧ (subj = none ∨ obj = none)) ∨
      (lt = some .pd ∧ subj = none) ∨
      (lt = some .pr ∧ obj = none)) ∧
    (validateLabel none subj obj = some "Please select a label type") ∧
    (subj = none →
      validateLabel (some .pdr) subj obj =
        some "Please select subject words for full alignment") ∧
    (subj ≠ none → obj = none →
      validateLabel (some .pdr) subj obj =
        some "Please select object words for full alignment") ∧
    (subj = none →
      validateLabel (some .pd) subj obj =
        some "Please select subject words for correct domain") ∧
    (obj = none →
      validateLabel (some .pr) subj obj =
        some "Please select object words for correct range") ∧
    (validateLabel (some .p) subj obj = none) ∧
    (validateLabel (some .n) subj obj = none) := by
  rcases lt with _ | t
  · cases subj <;> cases obj <;> simp [validateLabel]
  · cases t <;> cases subj <;> cases obj <;> simp [validateLabel]

/-- Witness for C4: the characterization applied at concrete inputs, one per
rejection message and one accepting case. -/
theorem validateLabel_characterization_witness :
    validateLabel none none none = some "Please select a label type" ∧
    validateLabel (some .pdr) none (some (1, 2)) =
      some "Please select subject words for full alignment" ∧
    validateLabel (some .pdr) (some (0, 0)) none =
      some "Please select object words for full alignment" ∧
    validateLabel (some .pd) none none =
      some "Please select subject words for correct domain" ∧
    validateLabel (some .pr) none none =
      some "Please select object words for correct range" ∧
    validateLabel (some .p) none none = none ∧
    validateLabel (some .n) none none = none :=
  ⟨(validateLabel_characterization none none none).2.1,
   (validateLabel_characterization (some .pdr) none (some (1, 2))).2.2.1 rfl,
   (validateLabel_characterization (some .pdr) (some (0, 0)) none).2.2.2.1
     (by decide) rfl,
   (validateLabel_characterization (some .pd) none none).2.2.2.2.1 rfl,
   (validateLabel_characterization (some .pr) none none).2.2.2.2.2.1 rfl,
   (validateLabel_characterization (some .p) none none).2.2.2.2.2.2.1,
   (validateLabel_characterization (some .n) none none).2.2.2.2.2.2.2⟩

/-- A whitespace character as matched by the JS regex `\s` (the characters
occurring in practice in sentence text). -/
def isWsChar (c : Char) : Bool :=
  c = ' ' || c = '\t' || c = '\n' || c = '\r'

/-- Worker for `splitWs`: `cur` is the current (reversed) partial token,
`lastWs` records that the previous character was whitespace, so that a
maximal whitespace run acts as one separator, as `split(/\s+/)` does. -/
def splitWsAux : List Char → List Char → Bool → List String
  | [], cur, _ => [String.mk cur.reverse]
  | c :: cs, cur, lastWs =>
    if isWsChar c then
      if lastWs then splitWsAux cs [] true
      else String.mk cur.reverse :: splitWsAux cs [] true
    else splitWsAux cs (c :: cur) false

/-- The JS tokenizer `text.split(/\s+/)` used on both the write path
(part_002 line 32) and the read paths (export-client.tsx lines 64 and 69,
part_003 lines 315 and 425): splits at maximal whitespace runs, keeping an
empty leading (trailing) token when the text starts (ends) with whitespace,
and yielding `[""]` on the empty string. -/
def splitWs (s : String) : List String :=
  splitWsAux s.data [] false

/-- JS `Array.prototype.slice(a, b)` for natural bounds: the elements at
indices `a` to `b - 1`. -/
def jsSlice {α : Type} (l : List α) (a b : Nat) : List α :=
  (l.drop a).take (b - a)

/-- JS `Array.prototype.join(" ")`. -/
def joinSpace (l : List String) : String :=
  " ".intercalate l

/-- The span text rendered by `WordSelector` at label time
(word-selector.tsx line 81): `words.slice(sel[0], sel[1] + 1).join(" ")`. -/
def selectorSelectedText (words : List String) (sel : Span) : String :=
  joinSpace (jsSlice words sel.1 (sel.2 + 1))

/-- The exported `subject_text` / `object_text` of `handleExport`
(export-client.tsx lines 63-70): when both boundary fields are non-null,
re-split the sentence text and join tokens `start..end`; otherwise null. -/
def exportSpanText (text : String) :
    Option Nat → Option Nat → Option String
  | some s, some e => some (joinSpace (jsSlice (splitWs text) s (e + 1)))
  | some _, none => none
  | none, _ => none

/-- Claim C5: export reconstruction is a round-trip — for every sentence
text and stored span `[s, e]`, the exported span text equals the text the
selector displayed at label time, both paths splitting the sentence with the
same whitespace rule; and concretely, "The cat sat on the mat" with subject
span `[1,1]` and object span `[5,5]` exports `subject_text = "cat"` and
`object_text = "mat"`. -/
theorem export_reconstruction_roundtrip (text : String) (s e : Nat) :
    exportSpanText text (some s) (some e) =
      some (selectorSelectedText (splitWs text) (s, e)) ∧
    splitWs "The cat sat on the mat" =
      ["The", "cat", "sat", "on", "the", "mat"] ∧
    exportSpanText "The cat sat on the mat" (some 1) (some 1) = some "cat" ∧
    exportSpanText "The cat sat on the mat" (some 5) (some 5) = some "mat" :=
  ⟨rfl, by decide, by decide, by decide⟩

/-- The local editing state of `SentenceLabeler` (part_002, lines 25-30):
the chosen category, the two spans, the inline error and the success flag. -/
structure LabelerForm where
  labelType : Option LabelType
  subjectSpan : Option Span
  objectSpan : Option Span
  errorMsg : Option String
  success : Bool
deriving DecidableEq

/-- The RadioGroup `onValueChange` of the labeling flow (part_002, lines
109-116): set the category, clear the error, and clear both spans when the
new category is `p` or `n`. -/
def labelTypeChange (st : LabelerForm) (value : LabelType) : LabelerForm :=
  { st with
    labelType := some value
    errorMsg := none
    subjectSpan :=
      if value = .p ∨ value = .n then none else st.subjectSpan
    objectSpan :=
      if value = .p ∨ value = .n then none else st.objectSpan }

/-- The local editing state of the edit dialog in `MyLabelsClient`
(part_003, lines 145-147). -/
structure EditForm where
  editLabelType : Option LabelType
  editSubjectSpan : Option Span
  editObjectSpan : Option Span
deriving DecidableEq

/-- The RadioGroup `onValueChange` of the edit flow (part_003, lines
398-404): set the category and clear both spans when it is `p` or `n`. -/
def editLabelTypeChange (st : EditForm) (value : LabelType) : EditForm :=
  { st with
    editLabelType := some value
    editSubjectSpan :=
      if value = .p ∨ value = .n then none else st.editSubjectSpan
    editObjectSpan :=
      if value = .p ∨ value = .n then none else st.editObjectSpan }

/-- Claim C7: switching the category to `p` or `n` sets both spans to `none`
in the local editing state of both the labeling flow and the edit flow (a
pure state update, before any submit), while switching to a span-requiring
category (`pdr`, `pd`, `pr`) leaves both spans unchanged. -/
theorem no_span_category_clears_spans (st : LabelerForm) (est : EditForm)
    (v : LabelType) :
    (v = .p ∨ v = .n →
      (labelTypeChange st v).subjectSpan = none ∧
      (labelTypeChange st v).objectSpan = none ∧
      (editLabelTypeChange est v).editSubjectSpan = none ∧
      (editLabelTypeChange est v).editObjectSpan = none) ∧
    (v = .pdr ∨ v = .pd ∨ v = .pr →
      (labelTypeChange st v).subjectSpan = st.subjectSpan ∧
      (labelTypeChange st v).objectSpan = st.objectSpan ∧
      (editLabelTypeChange est v).editSubjectSpan = est.editSubjectSpan ∧
      (editLabelTypeChange est v).editObjectSpan = est.editObjectSpan) := by
  cases v <;>
    simp [labelTypeChange, editLabelTypeChange]

/-- Witness for C7: switching from `pdr` to `n` clears both spans; switching
to `pd` keeps them. -/
theorem no_span_category_clears_spans_witness :
    ((labelTypeChange
        ⟨some .pdr, some (0, 1), some (3, 4), none, false⟩ .n).subjectSpan =
        none ∧
      (labelTypeChange
        ⟨some .pdr, some (0, 1), some (3, 4), none, false⟩ .n).objectSpan =
        none ∧
      (editLabelTypeChange ⟨some .pdr, some (0, 1), some (3, 4)⟩
          .n).editSubjectSpan = none ∧
      (editLabelTypeChange ⟨some .pdr, some (0, 1), some (3, 4)⟩
          .n).editObjectSpan = none) ∧
    ((labelTypeChange
        ⟨some .pdr, some (0, 1), some (3, 4), none, false⟩ .pd).subjectSpan =
        some (0, 1) ∧
      (labelTypeChange
        ⟨some .pdr, some (0, 1), some (3, 4), none, false⟩ .pd).objectSpan =
        some (3, 4)) :=
  ⟨(no_span_category_clears_spans
      ⟨some .pdr, some (0, 1), some (3, 4), none, false⟩
      ⟨some .pdr, some (0, 1), some (3, 4)⟩ .n).1 (Or.inr rfl),
   ⟨((no_span_category_clears_spans
        ⟨some .pdr, some (0, 1), some (3, 4), none, false⟩
        ⟨some .pdr, some (0, 1), some (3, 4)⟩ .pd).2
      (Or.inr (Or.inl rfl))).1,
    ((no_span_category_clears_spans
        ⟨some .pdr, some (0, 1), some (3, 4), none, false⟩
        ⟨some .pdr, some (0, 1), some (3, 4)⟩ .pd).2
      (Or.inr (Or.inl rfl))).2.1⟩⟩

/-- A sentence row as the labeler client uses it: its identifier and its
running label count (lib/types, part_000 lines 13-19; the raw text plays no
role in the submit logic). -/
structure SentenceRow where
  id : Nat
  label_count : Nat
deriving DecidableEq

/-- The local state of `LabelerClient` touched by a submit
(labeler-client.tsx lines 23-27): the loaded sentence list and the index of
the sentence being labeled. -/
structure ClientState where
  sentences : List SentenceRow
  currentIndex : Nat
deriving DecidableEq

/-- `handleLabelSubmit` from labeler-client.tsx lines 56-91, with the
external store's reply to the single insert call passed in as `insertError`.
When no property or current sentence exists the function returns early
(line 61, an undefined — falsy — result); when the insert errors it changes
nothing and returns `false`; on success it increments the current sentence's
`label_count` and advances `currentIndex` when not at the last sentence. -/
def handleLabelSubmit (hasProperty : Bool) (insertError : Bool)
    (st : ClientState) : ClientState × Bool :=
  if hasProperty ∧ st.currentIndex < st.sentences.length then
    if insertError then (st, false)
    else
      ({ sentences := st.sentences.mapIdx fun i s =>
           if i = st.currentIndex then { s with label_count := s.label_count + 1 }
           else s
         currentIndex :=
           if st.currentIndex < st.sentences.length - 1 then
             st.currentIndex + 1
           else st.currentIndex }, true)
  else (st, false)

/-- `handleSubmit` from `SentenceLabeler` (part_002, lines 57-82), given the
result `onSubmit` returned for the one attempt: a validation failure sets
its message; a falsy submit result sets the generic failure message and
keeps everything else; a successful submit resets the form (state after the
success banner's timeout has cleared it). -/
def sentenceLabelerSubmit (submitOk : Bool) (fs : LabelerForm) : LabelerForm :=
  match validateLabel fs.labelType fs.subjectSpan fs.objectSpan with
  | some msg => { fs with errorMsg := some msg }
  | none =>
    if submitOk then
      { labelType := none, subjectSpan := none, objectSpan := none,
        errorMsg := none, success := false }
    else { fs with errorMsg := some "Failed to submit label. Please try again." }

/-- Claim C8: when the external store reports an error on the label insert,
no local state changes — the sentence list (hence every `label_count`) and
the current index are untouched, the submit reports failure, the entered
category and spans are retained, and the generic failure message is shown.
The model issues exactly one insert per attempt, so no retry occurs. -/
theorem insert_error_leaves_state_unchanged (hasProperty : Bool)
    (st : ClientState) (fs : LabelerForm)
    (hvalid : validateLabel fs.labelType fs.subjectSpan fs.objectSpan = none) :
    (handleLabelSubmit hasProperty true st).1 = st ∧
    (handleLabelSubmit hasProperty true st).2 = false ∧
    (sentenceLabelerSubmit false fs).labelType = fs.labelType ∧
    (sentenceLabelerSubmit false fs).subjectSpan = fs.subjectSpan ∧
    (sentenceLabelerSubmit false fs).objectSpan = fs.objectSpan ∧
    (sentenceLabelerSubmit false fs).errorMsg =
      some "Failed to submit label. Please try again." := by
  refine ⟨?_, ?_, ?_, ?_, ?_, ?_⟩ <;>
    simp [handleLabelSubmit, sentenceLabelerSubmit, hvalid]

/-- Witness for C8: a failing insert on a one-sentence list with a valid
`n`-category form leaves everything unchanged and shows the message. -/
theorem insert_error_leaves_state_unchanged_witness :
    (handleLabelSubmit true true ⟨[⟨7, 0⟩], 0⟩).1 = ⟨[⟨7, 0⟩], 0⟩ ∧
    (handleLabelSubmit true true ⟨[⟨7, 0⟩], 0⟩).2 = false ∧
    (sentenceLabelerSubmit false
        ⟨some .n, none, none, none, false⟩).labelType = some .n ∧
    (sentenceLabelerSubmit false
        ⟨some .n, none, none, none, false⟩).subjectSpan = none ∧
    (sentenceLabelerSubmit false
        ⟨some .n, none, none, none, false⟩).objectSpan = none ∧
    (sentenceLabelerSubmit false
        ⟨some .n, none, none, none, false⟩).errorMsg =
      some "Failed to submit label. Please try again." :=
  insert_error_leaves_state_unchanged true ⟨[⟨7, 0⟩], 0⟩
    ⟨some .n, none, none, none, false⟩ rfl

/-- `needsSubject` from part_002 line 84 (also part_003 line 227): the
subject `WordSelector` is rendered only for these categories. -/
def needsSubject (lt : Option LabelType) : Bool :=
  lt = some .pdr || lt = some .pd

/-- `needsObject` from part_002 line 85 (also part_003 line 228). -/
def needsObject (lt : Option LabelType) : Bool :=
  lt = some .pdr || lt = some .pr

/-- The user events that touch the `SentenceLabeler` editing state before a
submit: choosing a category, or clicking a token in one of the two word
selectors. -/
inductive LabelerEvent
  | setCategory (v : LabelType)
  | subjectClick (i : Nat)
  | objectClick (i : Nat)

/-- One event of the `SentenceLabeler` session (part_002, lines 84-179): a
category choice runs the RadioGroup handler; a word click reaches a span
only when its selector is rendered (`needsSubject` / `needsObject`), and
then runs `handleWordClick` with the other span as the disabled range. -/
def labelerStep (fs : LabelerForm) (ev : LabelerEvent) : LabelerForm :=
  match ev with
  | .setCategory v => labelTypeChange fs v
  | .subjectClick i =>
    if needsSubject fs.labelType then
      { fs with subjectSpan := handleWordClick fs.objectSpan fs.subjectSpan i }
    else fs
  | .objectClick i =>
    if needsObject fs.labelType then
      { fs with objectSpan := handleWordClick fs.subjectSpan fs.objectSpan i }
    else fs

/-- The initial `SentenceLabeler` state (part_002, lines 25-30): no
category, no spans, no error. -/
def initialForm : LabelerForm :=
  ⟨none, none, none, none, false⟩

def runLabeler (evs : List LabelerEvent) : LabelerForm :=
  evs.foldl labelerStep initialForm

/-- The row `handleLabelSubmit` inserts into the `labels` table
(labeler-client.tsx lines 65-74), restricted to the fields the claims are
about: `subjectSpan?.[0] ?? null` maps a null span to null boundaries. -/
structure LabelRow where
  label_type : LabelType
  subject_start : Option Nat
  subject_end : Option Nat
  object_start : Option Nat
  object_end : Option Nat
deriving DecidableEq

def insertPayload (labelType : LabelType)
    (subjectSpan objectSpan : Option Span) : LabelRow :=
  { label_type := labelType
    subject_start := subjectSpan.map Prod.fst
    subject_end := subjectSpan.map Prod.snd
    object_start := objectSpan.map Prod.fst
    object_end := objectSpan.map Prod.snd }

/-- The session invariant behind C9: once the category is `p` or `n`, both
spans are `none`. -/
def noSpanInv (fs : LabelerForm) : Prop :=
  fs.labelType = some .p ∨ fs.labelType = some .n →
    fs.subjectSpan = none ∧ fs.objectSpan = none

theorem labelerStep_preserves_noSpanInv {fs : LabelerForm}
    (h : noSpanInv fs) (ev : LabelerEvent) : noSpanInv (labelerStep fs ev) := by
  cases ev with
  | setCategory v =>
    cases v <;> simp [labelerStep, labelTypeChange, noSpanInv]
  | subjectClick i =>
    by_cases hn : needsSubject fs.labelType = true
    · intro hlt
      simp only [labelerStep, hn, if_true] at hlt
      exfalso
      rcases hlt with hlt | hlt <;> simp [needsSubject, hlt] at hn
    · simpa [labelerStep, hn] using h
  | objectClick i =>
    by_cases hn : needsObject fs.labelType = true
    · intro hlt
      simp only [labelerStep, hn, if_true] at hlt
      exfalso
      rcases hlt with hlt | hlt <;> simp [needsObject, hlt] at hn
    · simpa [labelerStep, hn] using h

theorem runLabeler_noSpanInv (evs : List LabelerEvent) :
    noSpanInv (runLabeler evs) := by
  have general : ∀ (l : List LabelerEvent) (fs : LabelerForm), noSpanInv fs →
      noSpanInv (l.foldl labelerStep fs) := by
    intro l
    induction l with
    | nil => exact fun fs h => h
    | cons e l ih =>
      exact fun fs h => ih (labelerStep fs e) (labelerStep_preserves_noSpanInv h e)
  exact general evs initialForm (by simp [noSpanInv, initialForm])

/-- Claim C9: every label submitted with category `p` or `n` has all four
persisted span fields null — in any event sequence (category choices and
word clicks, where clicks only reach a selector that is rendered), if the
current category is `p` or `n`, the insert payload built from the current
state has `subject_start`, `subject_end`, `object_start` and `object_end`
all `none`. -/
theorem p_n_payload_spans_null (evs : List LabelerEvent) (lt : LabelType)
    (hlt : (runLabeler evs).labelType = some lt)
    (hpn : lt = .p ∨ lt = .n) :
    (insertPayload lt (runLabeler evs).subjectSpan
        (runLabeler evs).objectSpan).subject_start = none ∧
    (insertPayload lt (runLabeler evs).subjectSpan
        (runLabeler evs).objectSpan).subject_end = none ∧
    (insertPayload lt (runLabeler evs).subjectSpan
        (runLabeler evs).objectSpan).object_start = none ∧
    (insertPayload lt (runLabeler evs).subjectSpan
        (runLabeler evs).objectSpan).object_end = none := by
  have hspans := runLabeler_noSpanInv evs
    (by rcases hpn with h | h <;> rw [h] at hlt <;> [exact Or.inl hlt; exact Or.inr hlt])
  rw [hspans.1, hspans.2]
  simp [insertPayload]

/-- Witness for C9: selecting `pd`, clicking tokens, then switching to `n`
yields a payload with four null span fields. -/
theorem p_n_payload_spans_null_witness :
    (insertPayload .n
        (runLabeler [.setCategory .pd, .subjectClick 2, .setCategory .n]).subjectSpan
        (runLabeler [.setCategory .pd, .subjectClick 2, .setCategory .n]).objectSpan).subject_start
      = none ∧
    (insertPayload .n
        (runLabeler [.setCategory .pd, .subjectClick 2, .setCategory .n]).subjectSpan
        (runLabeler [.setCategory .pd, .subjectClick 2, .setCategory .n]).objectSpan).subject_end
      = none ∧
    (insertPayload .n
        (runLabeler [.setCategory .pd, .subjectClick 2, .setCategory .n]).subjectSpan
        (runLabeler [.setCategory .pd, .subjectClick 2, .setCategory .n]).objectSpan).object_start
      = none ∧
    (insertPayload .n
        (runLabeler [.setCategory .pd, .subjectClick 2, .setCategory .n]).subjectSpan
        (runLabeler [.setCategory .pd, .subjectClick 2, .setCategory .n]).objectSpan).object_end
      = none :=
  p_n_payload_spans_null [.setCategory .pd, .subjectClick 2, .setCategory .n]
    .n (by decide) (Or.inr rfl)

/-- `handleEdit`'s subject-span initialization (part_003, lines 165-169): a
stored span is loaded only when both boundary fields are non-null. -/
def editSubjectInit (label : LabelRow) : Option Span :=
  match label.subject_start, label.subject_end with
  | some s, some e => some (s, e)
  | some _, none => none
  | none, _ => none

/-- `handleEdit`'s object-span initialization (part_003, lines 170-174). -/
def editObjectInit (label : LabelRow) : Option Span :=
  match label.object_start, label.object_end with
  | some s, some e => some (s, e)
  | some _, none => none
  | none, _ => none

/-- Claim C10: a stored span is treated as present only when both boundary
fields are non-null — if either `subject_start`/`subject_end` (resp.
`object_start`/`object_end`) is null, the edit flow initializes that span as
absent and the export emits null for the corresponding span text, for every
label record and sentence text. -/
theorem half_null_span_treated_as_absent (label : LabelRow) (text : String) :
    (label.subject_start = none ∨ label.subject_end = none →
      editSubjectInit label = none ∧
      exportSpanText text label.subject_start label.subject_end = none) ∧
    (label.object_start = none ∨ label.object_end = none →
      editObjectInit label = none ∧
      exportSpanText text label.object_start label.object_end = none) := by
  constructor
  · intro h
    rcases hs : label.subject_start with _ | a <;>
      rcases he : label.subject_end with _ | b <;>
        simp [hs, he] at h ⊢ <;>
        simp [editSubjectInit, exportSpanText, hs, he]
  · intro h
    rcases hs : label.object_start with _ | a <;>
      rcases he : label.object_end with _ | b <;>
        simp [hs, he] at h ⊢ <;>
        simp [editObjectInit, exportSpanText, hs, he]

/-- Witness for C10: a record with `subject_end` and `object_start` null is
loaded with both spans absent and exports null span texts. -/
theorem half_null_span_treated_as_absent_witness :
    editSubjectInit ⟨.pdr, some 1, none, none, some 4⟩ = none ∧
    exportSpanText "The cat sat on the mat" (some 1) none = none ∧
    editObjectInit ⟨.pdr, some 1, none, none, some 4⟩ = none ∧
    exportSpanText "The cat sat on the mat" none (some 4) = none :=
  ⟨((half_null_span_treated_as_absent ⟨.pdr, some 1, none, none, some 4⟩
      "The cat sat on the mat").1 (Or.inr rfl)).1,
   ((half_null_span_treated_as_absent ⟨.pdr, some 1, none, none, some 4⟩
      "The cat sat on the mat").1 (Or.inr rfl)).2,
   ((half_null_span_treated_as_absent ⟨.pdr, some 1, none, none, some 4⟩
      "The cat sat on the mat").2 (Or.inl rfl)).1,
   ((half_null_span_treated_as_absent ⟨.pdr, some 1, none, none, some 4⟩
      "The cat sat on the mat").2 (Or.inl rfl)).2⟩

end OntologyLabeling
